import Mathlib

/-!
Verification of the `schedule_core` recurring-task scheduler
(`src/schedule_core/core/scheduler.py`) against its natural-language
specification.

The scheduler state (`SchedulerState`) and its operations (`add_task`,
the tick body of `start`, `stop`) are shallow embeddings of the Python
class `TaskScheduler`.  Python dictionaries keyed by task objects are
modelled as association lists keyed by `TaskId` (object identity);
instants (`datetime`) are seconds since the Unix epoch (`Nat`); a task
body that may raise is modelled by a behaviour function `beh : TaskId →
Bool` (`true` means `task.execute()` raises this tick).  Exceptions are
modelled with `Except`.

The cron evaluator used by the scheduler is the third-party `croniter`
library, which is not part of this repository; it is modelled from the
specification (see the doc comments marked `Modelled from the spec`).
-/

namespace SchedCore

/-- Modelled from the spec: one field of a 5-field cron expression is a
literal value, a wildcard, or a step pattern. -/
inductive CronField where
  | wild : CronField
  | lit : Nat → CronField
  | step : Nat → CronField
deriving DecidableEq, Repr

/-- Modelled from the spec: a parsed 5-field cron expression
(minute, hour, day-of-month, month, day-of-week). -/
structure CronExpr where
  minute : CronField
  hour : CronField
  dom : CronField
  month : CronField
  dow : CronField
deriving DecidableEq, Repr

/-- Split a character list on a separator, keeping empty pieces, like
splitting a string on a single character. -/
def splitChars (sep : Char) : List Char → List (List Char)
  | [] => [[]]
  | c :: rest =>
    let r := splitChars sep rest
    if c = sep then [] :: r
    else
      match r with
      | [] => [[c]]
      | w :: ws => (c :: w) :: ws

/-- Value of a decimal digit character, or `none`. -/
def digitVal (c : Char) : Option Nat :=
  if 48 ≤ c.toNat ∧ c.toNat ≤ 57 then some (c.toNat - 48) else none

/-- Accumulator pass of decimal-number parsing over characters. -/
def parseNatAux : List Char → Nat → Option Nat
  | [], acc => some acc
  | c :: rest, acc =>
    match digitVal c with
    | some d => parseNatAux rest (acc * 10 + d)
    | none => none

/-- Parse a nonempty all-digit character list as a decimal number. -/
def parseNatChars : List Char → Option Nat
  | [] => none
  | c :: rest => parseNatAux (c :: rest) 0

/-- Modelled from the spec: parse a single cron field, where valid values
lie in `[lo, hi]`, a field being a literal, a wildcard, or a step. -/
def parseField (lo hi : Nat) (s : List Char) : Option CronField :=
  if s = ['*'] then some CronField.wild
  else
    match s with
    | '*' :: '/' :: rest =>
      match parseNatChars rest with
      | some n => if 0 < n then some (CronField.step n) else none
      | none => none
    | _ =>
      match parseNatChars s with
      | some n => if lo ≤ n ∧ n ≤ hi then some (CronField.lit n) else none
      | none => none

/-- Modelled from the spec: parse a 5-field cron expression with field
ranges minute ∈ [0,59], hour ∈ [0,23], day-of-month ∈ [1,31],
month ∈ [1,12], day-of-week ∈ [0,6]; anything else is malformed. -/
def parseCron (e : String) : Option CronExpr :=
  match splitChars ' ' e.data with
  | [mi, h, d, mo, w] =>
    match parseField 0 59 mi, parseField 0 23 h, parseField 1 31 d,
        parseField 1 12 mo, parseField 0 6 w with
    | some fmi, some fh, some fd, some fmo, some fw =>
      some ⟨fmi, fh, fd, fmo, fw⟩
    | _, _, _, _, _ => none
  | _ => none

/-- Gregorian leap-year test, used to realise the calendar fields. -/
def isLeap (y : Nat) : Bool :=
  (y % 4 = 0 && y % 100 ≠ 0) || y % 400 = 0

/-- Civil date (year, month, day) of a day count since 1970-01-01,
computed with the standard era-based Gregorian algorithm. -/
def civilFromDays (z0 : Nat) : Nat × Nat × Nat :=
  let z := z0 + 719468
  let era := z / 146097
  let doe := z % 146097
  let yoe := (doe - doe / 1460 + doe / 36524 - doe / 146096) / 365
  let y := yoe + era * 400
  let doy := doe - (365 * yoe + yoe / 4 - yoe / 100)
  let mp := (5 * doy + 2) / 153
  let d := doy - (153 * mp + 2) / 5 + 1
  let m := if mp < 10 then mp + 3 else mp - 9
  (if m ≤ 2 then y + 1 else y, m, d)

/-- Modelled from the spec: whether a field matches a value, with `lo` the
lower end of the field range (step patterns count from `lo`). -/
def fieldMatches (lo : Nat) (f : CronField) (v : Nat) : Bool :=
  match f with
  | CronField.wild => true
  | CronField.lit n => v = n
  | CronField.step n => (v - lo) % n = 0

/-- Modelled from the spec: whether the minute with index `k` (minutes
since the epoch) matches all five fields of a cron expression. -/
def cronMatches (c : CronExpr) (k : Nat) : Bool :=
  let date := civilFromDays (k / 1440)
  fieldMatches 0 c.minute (k % 60) &&
  fieldMatches 0 c.hour (k / 60 % 24) &&
  fieldMatches 1 c.dom date.2.2 &&
  fieldMatches 1 c.month date.2.1 &&
  fieldMatches 0 c.dow ((k / 1440 + 4) % 7)

/-- Modelled from the spec: linear search for the first matching minute at
or after `k`, with explicit fuel bounding the search window (the real
evaluator gives up after a multi-year window). -/
def searchFrom (c : CronExpr) : Nat → Nat → Option Nat
  | 0, _ => none
  | fuel + 1, k => if cronMatches c k then some k else searchFrom c fuel (k + 1)

/-- Search window of the evaluator: five years of minutes. -/
def cronSearchFuel : Nat := 2635200

/-- Modelled from the spec: error cases of the cron evaluator — a
malformed expression is rejected at parse time, and a well-formed
expression that never matches within the search window fails the search. -/
inductive CronError where
  | invalidExpression : CronError
  | badDate : CronError
deriving DecidableEq, Repr

/-- Modelled from the spec: `next_trigger(expression, reference_instant)`
— parse the expression, truncate the reference instant (seconds since
epoch) to minute granularity, and return the first matching minute
strictly after it, as an instant in seconds. -/
def next_trigger (e : String) (t : Nat) : Except CronError Nat :=
  match parseCron e with
  | none => Except.error CronError.invalidExpression
  | some c =>
    match searchFrom c cronSearchFuel (t / 60 + 1) with
    | none => Except.error CronError.badDate
    | some k => Except.ok (k * 60)

/-- Task object identity: Python keys the policy and schedule dicts by
the task object itself. -/
abbrev TaskId := Nat

/-- One value of `self.task_schedules`: the stored cron string and the
computed `next_run` instant. -/
structure Schedule where
  cron : String
  next_run : Nat
deriving DecidableEq, Repr

/-- Lookup in an association list, the model of Python dict access. -/
def lookupA {α : Type} : List (TaskId × α) → TaskId → Option α
  | [], _ => none
  | (k, v) :: rest, k2 => if k = k2 then some v else lookupA rest k2

/-- Update-or-insert in an association list, the model of Python dict
assignment (an existing key keeps its position, a new key is appended). -/
def setA {α : Type} : List (TaskId × α) → TaskId → α → List (TaskId × α)
  | [], k, v => [(k, v)]
  | (k1, v1) :: rest, k, v =>
    if k1 = k then (k, v) :: rest else (k1, v1) :: setA rest k v

/-- The fields of Python's `TaskScheduler`: the ordered task list, the
running flag, the schedule dict and the concurrency dict. -/
structure SchedulerState where
  tasks : List TaskId
  running : Bool
  task_schedules : List (TaskId × Schedule)
  concurrent_tasks : List (TaskId × Bool)
deriving DecidableEq, Repr

/-- `TaskScheduler.__init__`: empty registry, not running. -/
def initState : SchedulerState := ⟨[], false, [], []⟩

/-- `TaskScheduler.add_task(task, cron_expression, allow_concurrent)`.
The task is appended and its policy recorded before the cron expression
is evaluated, so a failure of the evaluator leaves those mutations in
place (the exception propagates to the caller).  Python's `if
cron_expression:` treats `None` and the empty string as falsy.  The
function body has no `return`, so a successful call returns `None`,
modelled as `Except.ok none`. -/
def add_task (s : SchedulerState) (task : TaskId) (cron_expression : Option String)
    (allow_concurrent : Bool) (now : Nat) :
    SchedulerState × Except CronError (Option TaskId) :=
  let s1 : SchedulerState :=
    { s with
      tasks := s.tasks ++ [task]
      concurrent_tasks := setA s.concurrent_tasks task allow_concurrent }
  match cron_expression with
  | none => (s1, Except.ok none)
  | some e =>
    if e = "" then (s1, Except.ok none)
    else
      match next_trigger e now with
      | Except.error err => (s1, Except.error err)
      | Except.ok nr =>
        ({ s1 with task_schedules := setA s1.task_schedules task ⟨e, nr⟩ },
          Except.ok none)

/-- What the loop body observed for one element of `self.tasks`:
whether `task.execute()` was invoked (directly or via
`asyncio.create_task`), and whether the `except` branch caught an
exception while processing it. -/
structure EntryResult where
  task : TaskId
  dispatched : Bool
  errored : Bool
deriving DecidableEq, Repr

/-- The `try`/`except` body of `start` for one element of `self.tasks`.
A scheduled task is dispatched when `current_time >= next_run`; its
`next_run` is then recomputed from `current_time` — but an exclusive
`await task.execute()` that raises jumps to `except` first, skipping the
recomputation.  An unscheduled task is dispatched unconditionally.
A missing policy key or a failing recomputation also raises into
`except`. -/
def processEntry (beh : TaskId → Bool) (now : Nat)
    (schedules : List (TaskId × Schedule)) (concurrent : List (TaskId × Bool))
    (task : TaskId) : List (TaskId × Schedule) × EntryResult :=
  match lookupA schedules task with
  | some schedule =>
    if schedule.next_run ≤ now then
      match lookupA concurrent task with
      | none => (schedules, ⟨task, false, true⟩)
      | some c =>
        if c then
          match next_trigger schedule.cron now with
          | Except.ok nr => (setA schedules task ⟨schedule.cron, nr⟩, ⟨task, true, false⟩)
          | Except.error _ => (schedules, ⟨task, true, true⟩)
        else
          if beh task then (schedules, ⟨task, true, true⟩)
          else
            match next_trigger schedule.cron now with
            | Except.ok nr => (setA schedules task ⟨schedule.cron, nr⟩, ⟨task, true, false⟩)
            | Except.error _ => (schedules, ⟨task, true, true⟩)
    else (schedules, ⟨task, false, false⟩)
  | none =>
    match lookupA concurrent task with
    | none => (schedules, ⟨task, false, true⟩)
    | some c =>
      if c then (schedules, ⟨task, true, false⟩)
      else if beh task then (schedules, ⟨task, true, true⟩)
      else (schedules, ⟨task, true, false⟩)

/-- The `for task in self.tasks` loop of one tick, threading the
schedule dict through and logging each entry's outcome in order. -/
def tickTasks (beh : TaskId → Bool) (now : Nat) :
    List TaskId → List (TaskId × Schedule) → List (TaskId × Bool) →
    List (TaskId × Schedule) × List EntryResult
  | [], schedules, _ => (schedules, [])
  | task :: rest, schedules, concurrent =>
    let r1 := processEntry beh now schedules concurrent task
    let r2 := tickTasks beh now rest r1.1 concurrent
    (r2.1, r1.2 :: r2.2)

/-- One iteration of the `while self.running` loop of `start` (one tick):
capture `now`, scan the task list, update the schedule dict.  The body
never reads or writes `self.running`. -/
def tick (beh : TaskId → Bool) (now : Nat) (s : SchedulerState) :
    SchedulerState × List EntryResult :=
  let r := tickTasks beh now s.tasks s.task_schedules s.concurrent_tasks
  ({ s with task_schedules := r.1 }, r.2)

/-- The `while self.running` loop of `start`, driven by a finite list of
tick inputs (the behaviour of the task bodies and the captured time for
each tick); the flag is tested at the top of each iteration. -/
def loopRun : List ((TaskId → Bool) × Nat) → SchedulerState →
    SchedulerState × List (List EntryResult)
  | [], s => (s, [])
  | (beh, now) :: rest, s =>
    if s.running then
      let r1 := tick beh now s
      let r2 := loopRun rest r1.1
      (r2.1, r1.2 :: r2.2)
    else (s, [])

/-- `TaskScheduler.start`: set `self.running = True` unconditionally and
enter the evaluation loop.  There is no check of the current state. -/
def start (inputs : List ((TaskId → Bool) × Nat)) (s : SchedulerState) :
    SchedulerState × List (List EntryResult) :=
  loopRun inputs { s with running := true }

/-- `TaskScheduler.stop`: set `self.running = False` and nothing else. -/
def stop (s : SchedulerState) : SchedulerState := { s with running := false }

instance {ε α : Type} [DecidableEq ε] [DecidableEq α] : DecidableEq (Except ε α)
  | Except.error a, Except.error b =>
    if h : a = b then isTrue (by rw [h])
    else isFalse (by intro hc; cases hc; exact h rfl)
  | Except.error _, Except.ok _ => isFalse (by intro hc; cases hc)
  | Except.ok _, Except.error _ => isFalse (by intro hc; cases hc)
  | Except.ok a, Except.ok b =>
    if h : a = b then isTrue (by rw [h])
    else isFalse (by intro hc; cases hc; exact h rfl)

/-- The minute search never returns a minute before its starting point. -/
theorem searchFrom_le (c : CronExpr) :
    ∀ (fuel k m : Nat), searchFrom c fuel k = some m → k ≤ m := by
  intro fuel
  induction fuel with
  | zero => intro k m h; simp [searchFrom] at h
  | succ n ih =>
    intro k m h
    unfold searchFrom at h
    by_cases hm : cronMatches c k = true
    · rw [if_pos hm] at h
      cases h
      exact Nat.le_refl _
    · rw [if_neg hm] at h
      exact Nat.le_trans (Nat.le_succ k) (ih (k + 1) m h)

/-- A successfully computed next trigger is strictly after the reference
instant. -/
theorem next_trigger_gt (e : String) (t u : Nat)
    (h : next_trigger e t = Except.ok u) : t < u := by
  unfold next_trigger at h
  cases hp : parseCron e with
  | none => rw [hp] at h; exact Except.noConfusion h
  | some c =>
    simp only [hp] at h
    cases hs : searchFrom c cronSearchFuel (t / 60 + 1) with
    | none => simp only [hs] at h; exact Except.noConfusion h
    | some k =>
      simp only [hs] at h
      injection h with h2
      have hk : t / 60 + 1 ≤ k := searchFrom_le c cronSearchFuel (t / 60 + 1) k hs
      have hmod := Nat.div_add_mod t 60
      have hlt : t % 60 < 60 := Nat.mod_lt t (by omega)
      have ht : t < (t / 60 + 1) * 60 := by omega
      have hku : (t / 60 + 1) * 60 ≤ k * 60 := Nat.mul_le_mul_right 60 hk
      omega

/-- Updating a key and looking it up yields the new value. -/
theorem lookupA_setA_self {α : Type} (m : List (TaskId × α)) (k : TaskId) (v : α) :
    lookupA (setA m k v) k = some v := by
  induction m with
  | nil => simp [setA, lookupA]
  | cons p rest ih =>
    cases p with
    | mk k1 v1 =>
      by_cases hk : k1 = k
      · simp [setA, hk, lookupA]
      · simp [setA, hk, lookupA, ih]

/-- The loop body's log entry for a task names that task. -/
theorem processEntry_task (beh : TaskId → Bool) (now : Nat)
    (sch : List (TaskId × Schedule)) (con : List (TaskId × Bool)) (t : TaskId) :
    (processEntry beh now sch con t).2.task = t := by
  unfold processEntry
  repeat first
  | rfl
  | split

/-- A tick logs one entry per element of the task list, in registration
order, whatever the task behaviours are. -/
theorem tickTasks_map (beh : TaskId → Bool) (now : Nat) :
    ∀ (ts : List TaskId) (sch : List (TaskId × Schedule)) (con : List (TaskId × Bool)),
    ((tickTasks beh now ts sch con).2).map EntryResult.task = ts := by
  intro ts
  induction ts with
  | nil => intro sch con; rfl
  | cons t rest ih =>
    intro sch con
    simp only [tickTasks, List.map_cons]
    rw [processEntry_task, ih]

/-- Schedule-dict effect of the loop body on a due scheduled entry: the
entry's `next_run` is recomputed from `now` exactly when the dispatch
returns normally to the loop (always for a concurrent dispatch, and for
an exclusive dispatch whose body does not raise), and only when the
recomputation itself succeeds; an exclusive body that raises skips the
recomputation. -/
theorem processEntry_sched_due (beh : TaskId → Bool) (now : Nat)
    (sch : List (TaskId × Schedule)) (con : List (TaskId × Bool))
    (t : TaskId) (schd : Schedule) (c : Bool)
    (h1 : lookupA sch t = some schd) (h2 : schd.next_run ≤ now)
    (h3 : lookupA con t = some c) :
    (processEntry beh now sch con t).1 =
      if c = true ∨ beh t = false then
        match next_trigger schd.cron now with
        | Except.ok nr => setA sch t ⟨schd.cron, nr⟩
        | Except.error _ => sch
      else sch := by
  unfold processEntry
  simp only [h1, if_pos h2, h3]
  cases c with
  | true =>
    simp only [true_or, if_pos]
    cases hnt : next_trigger schd.cron now <;> simp [hnt]
  | false =>
    cases hb : beh t with
    | true => simp [hb]
    | false => cases hnt : next_trigger schd.cron now <;> simp [hb, hnt]

/-- An exclusive entry whose body raises while due (or unscheduled) is
still dispatched, and the exception is caught by the loop body's
handler. -/
theorem processEntry_exclusive_raise (beh : TaskId → Bool) (now : Nat)
    (sch : List (TaskId × Schedule)) (con : List (TaskId × Bool)) (t : TaskId)
    (hb : lookupA con t = some false) (hbeh : beh t = true)
    (hdue : lookupA sch t = none ∨
      ∃ schd, lookupA sch t = some schd ∧ schd.next_run ≤ now) :
    (processEntry beh now sch con t).2.dispatched = true ∧
    (processEntry beh now sch con t).2.errored = true := by
  unfold processEntry
  rcases hdue with h | ⟨schd, h, hd⟩
  · simp [h, hb, hbeh]
  · simp [h, hb, hbeh, if_pos hd]

/-- Dispatch decision of the loop body: when the entry's policy is
recorded, the entry is dispatched exactly when it is unscheduled or its
`next_run` has been reached. -/
theorem processEntry_dispatched_iff (beh : TaskId → Bool) (now : Nat)
    (sch : List (TaskId × Schedule)) (con : List (TaskId × Bool))
    (t : TaskId) (b : Bool) (hb : lookupA con t = some b) :
    (processEntry beh now sch con t).2.dispatched = true ↔
      ∀ schd, lookupA sch t = some schd → schd.next_run ≤ now := by
  unfold processEntry
  cases hl : lookupA sch t with
  | none =>
    simp only [hl, hb]
    constructor
    · intro _ schd hs
      exact Option.noConfusion hs
    · intro _
      cases b <;> cases hbeh : beh t <;> simp [hbeh]
  | some schd =>
    simp only [hl, hb]
    by_cases hd : schd.next_run ≤ now
    · simp only [if_pos hd]
      constructor
      · intro _ schd2 hs2
        injection hs2 with he
        rw [← he]
        exact hd
      · intro _
        cases b <;> cases hbeh : beh t <;>
          cases hnt : next_trigger schd.cron now <;> simp [hbeh, hnt]
    · simp only [if_neg hd]
      constructor
      · intro hfalse
        exact absurd hfalse (by simp)
      · intro hall
        exact absurd (hall schd rfl) hd

/-- `add_task` always appends the task to the task list, whether or not
the cron expression validates. -/
theorem add_task_tasks (s : SchedulerState) (t : TaskId) (cron : Option String)
    (allow : Bool) (now : Nat) :
    (add_task s t cron allow now).1.tasks = s.tasks ++ [t] := by
  unfold add_task
  rcases cron with _ | e
  · rfl
  · by_cases he : e = ""
    · simp [he]
    · simp only [if_neg he]
      cases hnt : next_trigger e now <;> simp [hnt]

/-- `add_task` always records the requested concurrency policy, whether
or not the cron expression validates. -/
theorem add_task_policy (s : SchedulerState) (t : TaskId) (cron : Option String)
    (allow : Bool) (now : Nat) :
    (add_task s t cron allow now).1.concurrent_tasks
      = setA s.concurrent_tasks t allow := by
  unfold add_task
  rcases cron with _ | e
  · rfl
  · by_cases he : e = ""
    · simp [he]
    · simp only [if_neg he]
      cases hnt : next_trigger e now <;> simp [hnt]

/-- A successful `add_task` call returns Python `None`. -/
theorem add_task_ok_val (s : SchedulerState) (t : TaskId) (cron : Option String)
    (allow : Bool) (now : Nat) (v : Option TaskId)
    (h : (add_task s t cron allow now).2 = Except.ok v) : v = none := by
  unfold add_task at h
  rcases cron with _ | e
  · simp at h
    exact h.symm
  · by_cases he : e = ""
    · simp [he] at h
      exact h.symm
    · simp only [if_neg he] at h
      cases hnt : next_trigger e now with
      | error err =>
        simp [hnt] at h
      | ok nr =>
        simp [hnt] at h
        exact h.symm

/-- C7: after `stop()` the running flag is false; the loop, testing the
flag at the top of each iteration, performs no tick on a stopped
scheduler; and a tick in progress is unaffected by the flag — it
produces the same schedule updates and the same per-entry log whether or
not `stop()` has flipped the flag, so it runs to completion. -/
theorem stop_halts_loop_tick_completes (s : SchedulerState)
    (inputs : List ((TaskId → Bool) × Nat)) (beh : TaskId → Bool) (now : Nat) :
    (stop s).running = false ∧
    loopRun inputs (stop s) = (stop s, []) ∧
    (tick beh now (stop s)).1 = stop (tick beh now s).1 ∧
    (tick beh now (stop s)).2 = (tick beh now s).2 := by
  refine ⟨rfl, ?_, rfl, rfl⟩
  cases inputs with
  | nil => rfl
  | cons p rest => cases p with | mk b n => rfl

/-- C8: whenever the cron evaluator computes a next trigger from a
reference instant — as `add_task` does at registration and the loop does
after each firing — the result is strictly greater than the reference. -/
theorem next_trigger_strictly_after (e : String) (t u : Nat)
    (h : next_trigger e t = Except.ok u) : t < u :=
  next_trigger_gt e t u h

/-- C8 witness: the every-minute expression at instant 0 triggers next at
instant 60, strictly after 0. -/
theorem next_trigger_strictly_after_witness :
    next_trigger "* * * * *" 0 = Except.ok 60 ∧ 0 < 60 :=
  ⟨by decide, next_trigger_strictly_after "* * * * *" 0 60 (by decide)⟩

/-- C10: `stop()` cannot raise (it is a plain flag assignment) and
modifies only the running flag: the task list, the schedule dict and the
concurrency dict are untouched, and on an already-stopped scheduler the
call leaves the state identically unchanged. -/
theorem stop_frame (s : SchedulerState) :
    (stop s).running = false ∧
    (stop s).tasks = s.tasks ∧
    (stop s).task_schedules = s.task_schedules ∧
    (stop s).concurrent_tasks = s.concurrent_tasks ∧
    (s.running = false → stop s = s) := by
  refine ⟨rfl, rfl, rfl, rfl, ?_⟩
  intro h
  cases s with
  | mk tasks running sch con =>
    simp only at h
    rw [show running = false from h]
    rfl

/-- C10 witness: on the freshly initialised (stopped) scheduler, `stop`
is the identity. -/
theorem stop_frame_witness : stop initState = initState :=
  (stop_frame initState).2.2.2.2 rfl

/-- C1 counterexample: `add_task` on the empty registry with the
malformed expression `"x y z"` raises the validation error, yet the task
list and the concurrency-policy map are both mutated (only the schedule
map is unchanged) — partial state is created, refuting the claim. -/
theorem add_task_invalid_mutates_registry_cex :
    (add_task initState 0 (some "x y z") false 0).2
      = Except.error CronError.invalidExpression ∧
    (add_task initState 0 (some "x y z") false 0).1.tasks ≠ initState.tasks ∧
    (add_task initState 0 (some "x y z") false 0).1.concurrent_tasks
      ≠ initState.concurrent_tasks ∧
    (add_task initState 0 (some "x y z") false 0).1.task_schedules
      = initState.task_schedules :=
  ⟨by decide, by decide, by decide, by decide⟩

/-- C1 amended: for every scheduler state and every malformed (non-empty)
cron expression, `add_task` raises the validation error and leaves the
schedule map unchanged, but partial state is created first: the task is
appended to the task list and its concurrency policy is recorded. -/
theorem add_task_invalid_expression_effect (s : SchedulerState) (t : TaskId)
    (e : String) (allow : Bool) (now : Nat)
    (hp : parseCron e = none) (hne : ¬ e = "") :
    add_task s t (some e) allow now =
      ({ s with tasks := s.tasks ++ [t],
                concurrent_tasks := setA s.concurrent_tasks t allow },
        Except.error CronError.invalidExpression) := by
  unfold add_task next_trigger
  simp only [hp, if_neg hne]

/-- C1 witness: the amended effect at the empty registry with the
malformed expression `"x y z"`. -/
theorem add_task_invalid_expression_effect_witness :
    add_task initState 9 (some "x y z") true 0 =
      ({ initState with tasks := initState.tasks ++ [9],
                        concurrent_tasks := setA initState.concurrent_tasks 9 true },
        Except.error CronError.invalidExpression) :=
  add_task_invalid_expression_effect initState 9 "x y z" true 0 (by decide) (by decide)

/-- C2 counterexample: a due `Exclusive` entry (cron `* * * * *`,
`next_run = 0`) whose body raises at tick time 0 is dispatched and the
error caught, but its `next_run` is left at 0 instead of being
recomputed to the evaluator's next trigger 60 — the recomputation is
skipped on a raising exclusive body, refuting the claim. -/
theorem failed_exclusive_skips_recompute_cex :
    (tick (fun _ => true) 0
        (⟨[0], true, [(0, ⟨"* * * * *", 0⟩)], [(0, false)]⟩ : SchedulerState)).1.task_schedules
      = [(0, ⟨"* * * * *", 0⟩)] ∧
    (tick (fun _ => true) 0
        (⟨[0], true, [(0, ⟨"* * * * *", 0⟩)], [(0, false)]⟩ : SchedulerState)).2
      = [⟨0, true, true⟩] ∧
    next_trigger "* * * * *" 0 = Except.ok 60 ∧ (60 : Nat) ≠ 0 :=
  ⟨by decide, by decide, by decide, by decide⟩

/-- C2 amended: for a due scheduled entry, the tick recomputes
`next_run_at` from the captured tick time exactly when the dispatch
returns normally to the loop — always for a `Concurrent` entry, and for
an `Exclusive` entry whose body completes; an `Exclusive` body that
raises skips the recomputation, leaving `next_run_at` unchanged. -/
theorem due_entry_recompute_on_normal_return (beh : TaskId → Bool) (now : Nat)
    (sch : List (TaskId × Schedule)) (con : List (TaskId × Bool))
    (t : TaskId) (schd : Schedule) (c : Bool)
    (h1 : lookupA sch t = some schd) (h2 : schd.next_run ≤ now)
    (h3 : lookupA con t = some c) :
    (processEntry beh now sch con t).1 =
      if c = true ∨ beh t = false then
        match next_trigger schd.cron now with
        | Except.ok nr => setA sch t ⟨schd.cron, nr⟩
        | Except.error _ => sch
      else sch :=
  processEntry_sched_due beh now sch con t schd c h1 h2 h3

/-- C2 witness: a due exclusive entry whose body completes has its
`next_run` recomputed from tick time 0 to 60. -/
theorem due_entry_recompute_witness :
    (processEntry (fun _ => false) 0 [(2, ⟨"* * * * *", 0⟩)] [(2, false)] 2).1
      = [(2, ⟨"* * * * *", 60⟩)] := by
  rw [due_entry_recompute_on_normal_return (fun _ => false) 0
    [(2, ⟨"* * * * *", 0⟩)] [(2, false)] 2 ⟨"* * * * *", 0⟩ false
    (by decide) (by decide) (by decide)]
  decide

/-- C3 counterexample: on a scheduler that is already `Running` (flag
true, one due scheduled task), calling `start` is neither a no-op nor a
rejection: it enters the evaluation loop, runs a tick that mutates the
registry's schedule map and logs a dispatch. -/
theorem start_when_running_runs_loop_cex :
    (⟨[0], true, [(0, ⟨"* * * * *", 0⟩)], [(0, false)]⟩ : SchedulerState).running
      = true ∧
    (start [(fun _ => false, 0)]
        ⟨[0], true, [(0, ⟨"* * * * *", 0⟩)], [(0, false)]⟩).1
      ≠ ⟨[0], true, [(0, ⟨"* * * * *", 0⟩)], [(0, false)]⟩ ∧
    (start [(fun _ => false, 0)]
        ⟨[0], true, [(0, ⟨"* * * * *", 0⟩)], [(0, false)]⟩).2 ≠ [] :=
  ⟨by decide, by decide, by decide⟩

/-- C3 amended: `start()` performs no running-state check: it sets the
running flag and unconditionally begins the evaluation loop, so calling
`start()` on an already-`Running` scheduler drives the very same loop
again (a second loop instance over the registry) rather than no-opping
or rejecting. -/
theorem start_on_running_equals_loop (s : SchedulerState)
    (inputs : List ((TaskId → Bool) × Nat)) (h : s.running = true) :
    start inputs s = loopRun inputs s := by
  unfold start
  obtain ⟨tasks, running, sch, con⟩ := s
  have hb : running = true := h
  subst hb
  rfl

/-- C3 witness: on a concrete running scheduler, `start` coincides with
re-entering the loop directly. -/
theorem start_on_running_equals_loop_witness :
    start [] (⟨[], true, [], []⟩ : SchedulerState)
      = loopRun [] ⟨[], true, [], []⟩ :=
  start_on_running_equals_loop ⟨[], true, [], []⟩ [] rfl

/-- C4 counterexample: two distinct successful registrations both return
Python `None` — the same value each time — so `add_task` does not return
a stable identifier distinct per registration. -/
theorem add_task_returns_none_cex :
    (add_task initState 0 none false 0).2 = Except.ok none ∧
    (add_task (add_task initState 0 none false 0).1 1 none false 0).2
      = Except.ok none ∧
    (add_task initState 0 none false 0).2
      = (add_task (add_task initState 0 none false 0).1 1 none false 0).2 :=
  ⟨by decide, by decide, by decide⟩

/-- C4 amended: every successful `add_task` call returns `None` (no
identifier); the entry is referred to by the task object itself, which
is appended to the task list and keys the policy and schedule maps. -/
theorem add_task_success_returns_none (s : SchedulerState) (t : TaskId)
    (cron : Option String) (allow : Bool) (now : Nat) (v : Option TaskId)
    (h : (add_task s t cron allow now).2 = Except.ok v) :
    v = none ∧ (add_task s t cron allow now).1.tasks = s.tasks ++ [t] ∧
    lookupA (add_task s t cron allow now).1.concurrent_tasks t = some allow :=
  ⟨add_task_ok_val s t cron allow now v h,
    add_task_tasks s t cron allow now,
    by rw [add_task_policy]; exact lookupA_setA_self s.concurrent_tasks t allow⟩

/-- C4 witness: a concrete unscheduled registration returns `None`,
appends the task and records its policy. -/
theorem add_task_success_returns_none_witness :
    (none : Option TaskId) = none ∧
    (add_task initState 5 none true 0).1.tasks = initState.tasks ++ [5] ∧
    lookupA (add_task initState 5 none true 0).1.concurrent_tasks 5 = some true :=
  add_task_success_returns_none initState 5 none true 0 none (by decide)

/-- C5: whatever the task bodies do, a tick logs an outcome for every
entry of the task list in registration order (no raising body terminates
the loop or skips later entries), and an exclusive entry whose body
raises while due (or unscheduled) is still dispatched with the error
caught and recorded by the loop body's handler. -/
theorem tick_error_containment (beh : TaskId → Bool) (now : Nat) :
    (∀ s : SchedulerState,
      ((tick beh now s).2).map EntryResult.task = s.tasks) ∧
    (∀ (sch : List (TaskId × Schedule)) (con : List (TaskId × Bool)) (t : TaskId),
      lookupA con t = some false → beh t = true →
      (lookupA sch t = none ∨
        ∃ schd, lookupA sch t = some schd ∧ schd.next_run ≤ now) →
      (processEntry beh now sch con t).2.dispatched = true ∧
      (processEntry beh now sch con t).2.errored = true) := by
  constructor
  · intro s
    exact tickTasks_map beh now s.tasks s.task_schedules s.concurrent_tasks
  · intro sch con t hb hbeh hdue
    exact processEntry_exclusive_raise beh now sch con t hb hbeh hdue

/-- C5 witness: with every body raising, a two-task tick still logs both
entries in order, and the raising unscheduled exclusive task 4 is
dispatched with its error caught. -/
theorem tick_error_containment_witness :
    ((tick (fun _ => true) 0
        (⟨[3, 4], true, [(3, ⟨"* * * * *", 0⟩)],
          [(3, false), (4, false)]⟩ : SchedulerState)).2).map EntryResult.task
      = [3, 4] ∧
    (processEntry (fun _ => true) 0 [(3, ⟨"* * * * *", 0⟩)]
        [(3, false), (4, false)] 4).2.dispatched = true ∧
    (processEntry (fun _ => true) 0 [(3, ⟨"* * * * *", 0⟩)]
        [(3, false), (4, false)] 4).2.errored = true :=
  ⟨(tick_error_containment (fun _ => true) 0).1
      ⟨[3, 4], true, [(3, ⟨"* * * * *", 0⟩)], [(3, false), (4, false)]⟩,
    (tick_error_containment (fun _ => true) 0).2
    [(3, ⟨"* * * * *", 0⟩)] [(3, false), (4, false)] 4
    (by decide) rfl (Or.inl (by decide))⟩

/-- With a valid non-empty cron expression, `add_task` stores the entry
in the schedule dict under the task key, with the freshly computed
`next_run`. -/
theorem add_task_sched_ok (s : SchedulerState) (t : TaskId) (e : String)
    (allow : Bool) (now nr : Nat)
    (hok : next_trigger e now = Except.ok nr) (hne : ¬ e = "") :
    (add_task s t (some e) allow now).1.task_schedules
      = setA s.task_schedules t ⟨e, nr⟩ := by
  unfold add_task
  simp only [if_neg hne, hok]

/-- C6: a tick examines the entries in registration order (one log entry
per task-list element, in order), and — whenever its policy is recorded
— an entry is dispatched exactly when it is due: a scheduled entry when
the captured tick time has reached its `next_run`, an unscheduled entry
unconditionally. -/
theorem tick_dispatch_iff_due (beh : TaskId → Bool) (now : Nat) :
    (∀ s : SchedulerState,
      ((tick beh now s).2).map EntryResult.task = s.tasks) ∧
    (∀ (sch : List (TaskId × Schedule)) (con : List (TaskId × Bool))
      (t : TaskId) (b : Bool),
      lookupA con t = some b →
      ((processEntry beh now sch con t).2.dispatched = true ↔
        ∀ schd, lookupA sch t = some schd → schd.next_run ≤ now)) := by
  constructor
  · intro s
    exact tickTasks_map beh now s.tasks s.task_schedules s.concurrent_tasks
  · intro sch con t b hb
    exact processEntry_dispatched_iff beh now sch con t b hb

/-- C6 witness: a one-task tick logs the task, and the scheduled entry
with `next_run = 3` at tick time 10 satisfies the dispatch criterion. -/
theorem tick_dispatch_iff_due_witness :
    ((tick (fun _ => false) 10
        (⟨[5], true, [(5, ⟨"* * * * *", 3⟩)], [(5, true)]⟩ : SchedulerState)).2).map
          EntryResult.task = [5] ∧
    ((processEntry (fun _ => false) 10 [(5, ⟨"* * * * *", 3⟩)]
        [(5, true)] 5).2.dispatched = true ↔
      ∀ schd, lookupA ([(5, ⟨"* * * * *", 3⟩)] : List (TaskId × Schedule)) 5
          = some schd → schd.next_run ≤ 10) :=
  ⟨(tick_dispatch_iff_due (fun _ => false) 10).1
      ⟨[5], true, [(5, ⟨"* * * * *", 3⟩)], [(5, true)]⟩,
    (tick_dispatch_iff_due (fun _ => false) 10).2
      [(5, ⟨"* * * * *", 3⟩)] [(5, true)] 5 true (by decide)⟩

/-- C9: registering the same task object twice appends it twice to the
ordered task list while the policy and schedule dicts, keyed by the
object, are overwritten to the second registration's values; and within
one tick, once the first occurrence fires and the shared `next_run` is
recomputed (the dispatch having returned normally), the second
occurrence of the same task is no longer due and is not dispatched. -/
theorem duplicate_registration_shared_schedule (s : SchedulerState) (t : TaskId)
    (e : String) (a1 a2 : Bool) (n1 n2 nr1 nr2 : Nat)
    (_h1 : next_trigger e n1 = Except.ok nr1)
    (h2 : next_trigger e n2 = Except.ok nr2)
    (hne : ¬ e = "") :
    ((add_task (add_task s t (some e) a1 n1).1 t (some e) a2 n2).1.tasks
        = s.tasks ++ [t, t] ∧
      lookupA (add_task (add_task s t (some e) a1 n1).1 t
          (some e) a2 n2).1.task_schedules t = some ⟨e, nr2⟩ ∧
      lookupA (add_task (add_task s t (some e) a1 n1).1 t
          (some e) a2 n2).1.concurrent_tasks t = some a2) ∧
    (∀ (sch : List (TaskId × Schedule)) (con : List (TaskId × Bool))
      (beh : TaskId → Bool) (now : Nat) (schd : Schedule) (c : Bool) (nr : Nat),
      lookupA sch t = some schd → schd.next_run ≤ now →
      lookupA con t = some c → (c = true ∨ beh t = false) →
      next_trigger schd.cron now = Except.ok nr →
      (processEntry beh now (processEntry beh now sch con t).1 con t).2.dispatched
        = false) := by
  constructor
  · refine ⟨?_, ?_, ?_⟩
    · rw [add_task_tasks, add_task_tasks]
      simp [List.append_assoc]
    · rw [add_task_sched_ok _ _ _ _ _ _ h2 hne]
      exact lookupA_setA_self _ t (⟨e, nr2⟩ : Schedule)
    · rw [add_task_policy]
      exact lookupA_setA_self _ t a2
  · intro sch con beh now schd c nr hl hd hc hcond hnt
    have hstep := processEntry_sched_due beh now sch con t schd c hl hd hc
    rw [if_pos hcond] at hstep
    simp only [hnt] at hstep
    rw [hstep]
    have hgt : now < nr := next_trigger_gt schd.cron now nr hnt
    unfold processEntry
    simp only [lookupA_setA_self]
    have hnot : ¬ ((⟨schd.cron, nr⟩ : Schedule).next_run ≤ now) := by
      intro hcon
      have hcon2 : nr ≤ now := hcon
      omega
    rw [if_neg hnot]

/-- C9 witness: registering task 7 twice with `* * * * *` yields the
doubled task list, and in a tick at time 0 the second occurrence is not
dispatched after the first fires and recomputes the shared schedule. -/
theorem duplicate_registration_shared_schedule_witness :
    (add_task (add_task initState 7 (some "* * * * *") false 0).1 7
        (some "* * * * *") false 0).1.tasks = initState.tasks ++ [7, 7] ∧
    (processEntry (fun _ => false) 0
        (processEntry (fun _ => false) 0 [(7, ⟨"* * * * *", 0⟩)]
          [(7, false)] 7).1 [(7, false)] 7).2.dispatched = false :=
  ⟨((duplicate_registration_shared_schedule initState 7 "* * * * *" false false
      0 0 60 60 (by decide) (by decide) (by decide)).1).1,
    (duplicate_registration_shared_schedule initState 7 "* * * * *" false false
      0 0 60 60 (by decide) (by decide) (by decide)).2
      [(7, ⟨"* * * * *", 0⟩)] [(7, false)] (fun _ => false) 0
      ⟨"* * * * *", 0⟩ false 60
      (by decide) (by decide) (by decide) (Or.inr rfl) (by decide)⟩

end SchedCore
